import Mathlib

/-
Verification of the C++ convenience wrapper in include/cbl++ (Database.hh,
Document.hh) of couchbase-lite-C, as a shallow embedding.

The native C engine (CBLDatabase_..., CBLDocument_..., CBL_... calls) is an
external collaborator: each wrapper operation is parameterised by the outcome
of the native call it makes (a boolean success flag plus the CBLError the
native layer filled in, or a nullable document reference plus an error).
Native C pointers are modelled as `Option Nat` (`none` = null), C++ exceptions
as the `Except`/`AdoptResult` error branches, and `std::current_exception()`
as an explicit `unwinding : Bool` input.
-/

namespace CBL

/-- Model of a fleece `slice` (a string view). -/
abbrev Slice := String

/-- Model of the native `CBLError` struct: an error domain and a code
(the message is irrelevant to control flow and omitted). -/
structure CBLError where
  domain : Nat
  code : Nat
  deriving DecidableEq, Repr

/-- The Couchbase Lite error domain constant `CBLDomain`. -/
def CBLDomain : Nat := 1

/-- The conflict error code `CBLErrorConflict`. -/
def CBLErrorConflict : Nat := 409

/-- Model of the native `CBLConcurrencyControl` enum. -/
inductive CBLConcurrencyControl where
  | lastWriteWins
  | failOnConflict
  deriving DecidableEq, Repr

/-- Model of `cbl::Document`: wraps one nullable native document reference
(`_ref` in the source). A document holding `none` is the absent sentinel. -/
structure Document where
  ref : Option Nat
  deriving DecidableEq, Repr

/-- Model of `cbl::MutableDocument` (subclass of Document in the source):
wraps one nullable native mutable-document reference. -/
structure MutableDocument where
  ref : Option Nat
  deriving DecidableEq, Repr

/-- Outcome of an `adopt` call: a constructed wrapper object, a thrown
`CBLError`, or a dereference of a null `CBLError*` (undefined behavior in
the C++; kept as a distinct outcome so theorems can show it unreachable). -/
inductive AdoptResult (α : Type) where
  | ok (doc : α)
  | thrown (e : CBLError)
  | nullErrorDeref
  deriving DecidableEq, Repr

/-- Embeds `Document::checkSave` (Document.hh lines 67-74): returns true when
the native save succeeded; returns false when it failed with the conflict
error in the CBL domain; otherwise throws the error. -/
def Document.checkSave (saveResult : Bool) (error : CBLError) :
    Except CBLError Bool :=
  if saveResult then .ok true
  else if error.code = CBLErrorConflict ∧ error.domain = CBLDomain then .ok false
  else .error error

/-- Embeds `Document::adopt` (Document.hh lines 59-65). The `error` argument
models the `CBLError*` pointer (`none` = null). The C++ condition
`!d && error->code != 0` short-circuits, so the pointer is dereferenced only
when `d` is null. -/
def Document.adopt (d : Option Nat) (error : Option CBLError) :
    AdoptResult Document :=
  match d with
  | some p => .ok ⟨some p⟩
  | none =>
    match error with
    | none => .nullErrorDeref
    | some e => if e.code ≠ 0 then .thrown e else .ok ⟨none⟩

/-- Embeds `MutableDocument::adopt` (Document.hh lines 113-119); same shape as
`Document::adopt` but produces a MutableDocument. -/
def MutableDocument.adopt (d : Option Nat) (error : Option CBLError) :
    AdoptResult MutableDocument :=
  match d with
  | some p => .ok ⟨some p⟩
  | none =>
    match error with
    | none => .nullErrorDeref
    | some e => if e.code ≠ 0 then .thrown e else .ok ⟨none⟩

/-- Embeds `Database::getDocument` (Document.hh lines 129-132). `native`
stands for `CBLDatabase_GetDocument(ref(), id, &error)`: for the queried id it
yields the nullable document reference and the error it filled in; the result
is adopted with the address of that error. -/
def Database.getDocument (native : Slice → Option Nat × CBLError) (id : Slice) :
    AdoptResult Document :=
  Document.adopt (native id).1 (some (native id).2)

/-- Embeds `Database::saveDocument(MutableDocument&, CBLConcurrencyControl)`
(Document.hh lines 145-150). `native` stands for
`CBLDatabase_SaveDocumentWithConcurrencyControl(ref(), doc.ref(), c, &error)`,
as a function of the policy passed down: it yields the boolean result and the
error it filled in. -/
def Database.saveDocumentWithCC (native : CBLConcurrencyControl → Bool × CBLError)
    (c : CBLConcurrencyControl) : Except CBLError Bool :=
  Document.checkSave (native c).1 (native c).2

/-- Model of `cbl::SaveConflictHandler` (Database.hh lines 37-38): a resolver
taking the document being saved and the conflicting document. -/
abbrev SaveConflictHandler := MutableDocument → Document → Bool

/-- Embeds the `cHandler` lambda inside
`Database::saveDocument(MutableDocument&, SaveConflictHandler)` (Document.hh
lines 156-160): it reads the resolver out of the opaque context pointer and
invokes it on the in-flight mutable document and the conflicting document.
The context pointer (`&conflictHandler` in the source) is modelled as the
resolver value itself. -/
def Database.conflictTrampoline (context : SaveConflictHandler)
    (myDoc : Nat) (otherDoc : Nat) : Bool :=
  context ⟨some myDoc⟩ ⟨some otherDoc⟩

/-- Embeds `Database::saveDocument(MutableDocument&, SaveConflictHandler)`
(Document.hh lines 153-165). `native` stands for
`CBLDatabase_SaveDocumentWithConflictHandler`: it receives the trampoline and
the context (the resolver, kept alive across the call) and yields the boolean
result plus the error it filled in; the outcome goes through `checkSave`. -/
def Database.saveDocumentWithHandler
    (native : (SaveConflictHandler → Nat → Nat → Bool) → SaveConflictHandler →
              Bool × CBLError)
    (conflictHandler : SaveConflictHandler) : Except CBLError Bool :=
  Document.checkSave (native Database.conflictTrampoline conflictHandler).1
                     (native Database.conflictTrampoline conflictHandler).2

/-- Embeds `Database::deleteDocument(Document&, CBLConcurrencyControl)`
(Document.hh lines 167-172): the native delete outcome goes through the same
`checkSave` as save. -/
def Database.deleteDocument (native : CBLConcurrencyControl → Bool × CBLError)
    (cc : CBLConcurrencyControl) : Except CBLError Bool :=
  Document.checkSave (native cc).1 (native cc).2

/-- Modelled from the spec: `RefCounted::check` is declared in Base.hh, which
is not among the sources; per the spec's propagation policy ("all fatal
resource errors immediately abort the current operation and surface a
structured error (domain, code, message) to the caller"), `check(cond, error)`
throws `error` when `cond` is false and returns normally otherwise. -/
def RefCounted.check (cond : Bool) (error : CBLError) : Except CBLError Unit :=
  if cond then .ok () else .error error

/-- Embeds `Database::purgeDocument` (Document.hh lines 174-177). `native`
stands for `CBLDatabase_PurgeDocument(ref(), doc.ref(), &error)`: the boolean
result and the error filled in; any failure goes through `check`. -/
def Database.purgeDocument (native : Bool × CBLError) : Except CBLError Unit :=
  RefCounted.check native.1 native.2

/-- Embeds the static `Database::deleteDatabase` (Database.hh lines 68-76).
`native` stands for `CBL_DeleteDatabase(name, inDirectory, &error)`: only when
the native call fails AND the filled-in error code is non-zero is
`check(false, error)` reached. -/
def Database.deleteDatabase (native : Bool × CBLError) : Except CBLError Unit :=
  if native.1 = false ∧ native.2.code ≠ 0 then RefCounted.check false native.2
  else .ok ()

/-- The default argument of the in-class declaration
`Database::saveDocument(MutableDocument&, CBLConcurrencyControl c =
kCBLConcurrencyControlFailOnConflict)` (Database.hh lines 121-122). -/
def Database.saveDocumentDefaultArg : CBLConcurrencyControl := .failOnConflict

/-- Embeds the no-argument overload `Database::saveDocument(MutableDocument&)`
(Document.hh lines 140-142): it delegates with
`kCBLConcurrencyControlLastWriteWins`. -/
def Database.saveDocumentNoArg (native : CBLConcurrencyControl → Bool × CBLError) :
    Except CBLError Bool :=
  Database.saveDocumentWithCC native .lastWriteWins

/-- Model of `cbl::Batch` state (Database.hh lines 218-252): the `_db` member,
a nullable database reference; `none` after a move-out. -/
structure Batch where
  db : Option Nat
  deriving DecidableEq, Repr

/-- How a `Batch::end` call terminates: normal return, a warning logged via
`CBL_Log` (native end-batch failed while an exception was propagating), or a
thrown `CBLError`. -/
inductive EndOutcome where
  | ok
  | warned
  | threw (e : CBLError)
  deriving DecidableEq, Repr

/-- Full result of one `Batch::end` call: the post-call batch state, whether
`CBLDatabase_EndBatch` was invoked, and how the call terminated. -/
structure EndResult where
  batch : Batch
  nativeEndCalled : Bool
  outcome : EndOutcome
  deriving DecidableEq, Repr

/-- Embeds `Batch::end` (Database.hh lines 229-244). `_db` is moved out first
(clearing it); only when it held a database is `CBLDatabase_EndBatch` invoked
(`nativeEnd` models its boolean result and filled-in error). On native
failure: if an exception is in flight (`unwinding` models
`std::current_exception()` being non-null) the failure is logged as a warning;
otherwise `RefCounted::check(false, error)` throws it. -/
def Batch.end' (b : Batch) (nativeEnd : Bool × CBLError) (unwinding : Bool) :
    EndResult :=
  match b.db with
  | none => ⟨⟨none⟩, false, .ok⟩
  | some _ =>
    if nativeEnd.1 then ⟨⟨none⟩, true, .ok⟩
    else if unwinding then ⟨⟨none⟩, true, .warned⟩
    else
      match RefCounted.check false nativeEnd.2 with
      | .ok _ => ⟨⟨none⟩, true, .ok⟩
      | .error e => ⟨⟨none⟩, true, .threw e⟩

/-- Modelled from the spec: `ListenerToken` lives in Base.hh, which is not
among the sources. Per the spec, the token owns the user callback closure, its
address is the opaque context pointer handed to the native layer, and the
static `call(context, owner, args)` invokes that callback synchronously with
the reconstructed arguments. The context is modelled as the callback itself. -/
def ListenerToken.call {α β γ : Type} (context : α → β → γ)
    (owner : α) (args : β) : γ :=
  context owner args

/-- Embeds `Database::_callListener` (Database.hh lines 199-204): builds a
vector of exactly the `nDocs` changed document ids, in the order the native
layer supplied them (`docIDs` models the C array `FLString*`), and dispatches
it with the database through `ListenerToken::call`. -/
def Database.callListener {γ : Type} (context : Nat → List Slice → γ)
    (db : Nat) (nDocs : Nat) (docIDs : Nat → Slice) : γ :=
  ListenerToken.call context db (List.ofFn fun i : Fin nDocs => docIDs i.val)

/-- Embeds `Database::_callDocListener` (Database.hh lines 206-208): passes
the single changed document id with the database through
`ListenerToken::call`. -/
def Database.callDocListener {γ : Type} (context : Nat → Slice → γ)
    (db : Nat) (docID : Slice) : γ :=
  ListenerToken.call context db docID

/-- Embeds `Document::mutableCopy` (Document.hh lines 180-182): adopts the
result of `CBLDocument_MutableCopy(ref())` (modelled by `native`) with a null
error pointer. -/
def Document.mutableCopy (native : Option Nat) : AdoptResult MutableDocument :=
  MutableDocument.adopt native none

/-- Helper: the full outcome contract of `Document::checkSave`, shared by the
save, conflict-handler save and delete wrappers. -/
theorem checkSave_contract (res : Bool) (err : CBLError) :
    (Document.checkSave res err = .ok true ↔ res = true) ∧
    (Document.checkSave res err = .ok false ↔
      res = false ∧ err.code = CBLErrorConflict ∧ err.domain = CBLDomain) ∧
    (∀ e, Document.checkSave res err = .error e ↔
      res = false ∧ ¬(err.code = CBLErrorConflict ∧ err.domain = CBLDomain) ∧
      e = err) := by
  unfold Document.checkSave
  cases res
  · by_cases h : err.code = CBLErrorConflict ∧ err.domain = CBLDomain <;>
      simp [h] <;> tauto
  · simp

/-- C1: saveDocument in concurrency-control mode returns true exactly when the
native save succeeds; returns false (without raising an error) exactly when
the native save fails with the conflict error (code CBLErrorConflict in domain
CBLDomain); and for any other native failure it throws the structured error. -/
theorem saveDocument_cc_contract (native : CBLConcurrencyControl → Bool × CBLError)
    (c : CBLConcurrencyControl) :
    (Database.saveDocumentWithCC native c = .ok true ↔ (native c).1 = true) ∧
    (Database.saveDocumentWithCC native c = .ok false ↔
      (native c).1 = false ∧ (native c).2.code = CBLErrorConflict ∧
        (native c).2.domain = CBLDomain) ∧
    (∀ e, Database.saveDocumentWithCC native c = .error e ↔
      (native c).1 = false ∧
        ¬((native c).2.code = CBLErrorConflict ∧ (native c).2.domain = CBLDomain) ∧
        e = (native c).2) :=
  checkSave_contract (native c).1 (native c).2

/-- C2: in conflict-handler mode the resolver is the opaque context for the
whole native call, the trampoline invokes it on the in-flight mutable document
and the committed conflicting document, and the native boolean outcome goes
through the same true / false-on-conflict / throw-otherwise contract
(`checkSave`) as concurrency-control mode. -/
theorem saveDocument_handler_contract
    (native : (SaveConflictHandler → Nat → Nat → Bool) → SaveConflictHandler →
              Bool × CBLError)
    (handler : SaveConflictHandler) (myDoc otherDoc : Nat) :
    (Database.conflictTrampoline handler myDoc otherDoc
        = handler ⟨some myDoc⟩ ⟨some otherDoc⟩) ∧
    (Database.saveDocumentWithHandler native handler =
        Document.checkSave (native Database.conflictTrampoline handler).1
                           (native Database.conflictTrampoline handler).2) ∧
    (Database.saveDocumentWithHandler native handler = .ok true ↔
        (native Database.conflictTrampoline handler).1 = true) ∧
    (Database.saveDocumentWithHandler native handler = .ok false ↔
        (native Database.conflictTrampoline handler).1 = false ∧
        (native Database.conflictTrampoline handler).2.code = CBLErrorConflict ∧
        (native Database.conflictTrampoline handler).2.domain = CBLDomain) ∧
    (∀ e, Database.saveDocumentWithHandler native handler = .error e ↔
        (native Database.conflictTrampoline handler).1 = false ∧
        ¬((native Database.conflictTrampoline handler).2.code = CBLErrorConflict ∧
          (native Database.conflictTrampoline handler).2.domain = CBLDomain) ∧
        e = (native Database.conflictTrampoline handler).2) :=
  ⟨rfl, rfl,
    checkSave_contract (native Database.conflictTrampoline handler).1
      (native Database.conflictTrampoline handler).2⟩

/-- C3: getDocument returns the absent sentinel (a Document holding no native
reference) when the native layer yields no document and error code 0; it
throws exactly when the native layer yields no document with a non-zero error
code; a present document is adopted; a missing id is never an error. -/
theorem getDocument_contract (native : Slice → Option Nat × CBLError) (id : Slice) :
    ((native id).1 = none → (native id).2.code = 0 →
        Database.getDocument native id = .ok ⟨none⟩) ∧
    (∀ e, Database.getDocument native id = .thrown e ↔
        (native id).1 = none ∧ (native id).2.code ≠ 0 ∧ e = (native id).2) ∧
    (∀ p, (native id).1 = some p →
        Database.getDocument native id = .ok ⟨some p⟩) := by
  unfold Database.getDocument Document.adopt
  rcases native id with ⟨d, err⟩
  rcases d <;> simp <;> by_cases h : err.code = 0 <;> simp [h] <;> tauto

/-- C4: ending a Batch runs the native end-batch at most once across any
sequence of end() calls (explicit, destructor, or both): the first end clears
the database member, and any end on a cleared Batch invokes no native call,
changes nothing and terminates normally. -/
theorem batch_end_at_most_once (b : Batch) (n1 n2 : Bool × CBLError)
    (u1 u2 : Bool) :
    ((Batch.end' b n1 u1).batch.db = none) ∧
    (Batch.end' (Batch.end' b n1 u1).batch n2 u2 = ⟨⟨none⟩, false, .ok⟩) ∧
    ((Batch.end' b n1 u1).nativeEndCalled = true ↔ b.db.isSome) := by
  rcases b with ⟨db⟩
  rcases db <;>
    simp [Batch.end', RefCounted.check] <;>
    rcases n1 with ⟨ok1, e1⟩ <;>
    cases ok1 <;> cases u1 <;> simp

/-- C5: when Batch::end reaches a native end-batch failure, it degrades the
failure to a logged warning if an exception is already propagating (the scope
is unwinding), and otherwise raises it to the caller as the structured
error. -/
theorem batch_end_failure_semantics (db : Nat) (e : CBLError) (u : Bool) :
    ((Batch.end' ⟨some db⟩ (false, e) u).outcome
        = if u then .warned else .threw e) ∧
    ((Batch.end' ⟨some db⟩ (true, e) u).outcome = .ok) := by
  cases u <;> simp [Batch.end', RefCounted.check]

/-- A native behavior with no document for the queried id and error code 0,
used to exercise `getDocument` on a missing id. -/
def nativeMissingDoc : Slice → Option Nat × CBLError := fun _ => (none, ⟨1, 0⟩)

/-- Witness for C3: on a native layer reporting no document and error code 0,
getDocument returns the absent sentinel. -/
theorem getDocument_contract_witness :
    Database.getDocument nativeMissingDoc "missing" = .ok ⟨none⟩ :=
  (getDocument_contract nativeMissingDoc "missing").1 rfl rfl

/-- C6: deleteDocument follows the same decision tree as save (it is the same
`checkSave` on the native outcome: true on success, false exactly on the
conflict error, throw otherwise), while purgeDocument is unconditional: it
succeeds exactly when the native purge succeeds, and every native failure is
thrown — even one carrying the conflict error. -/
theorem delete_purge_contract (native : CBLConcurrencyControl → Bool × CBLError)
    (cc : CBLConcurrencyControl) (p : Bool × CBLError) :
    (Database.deleteDocument native cc = Database.saveDocumentWithCC native cc) ∧
    (Database.deleteDocument native cc = .ok true ↔ (native cc).1 = true) ∧
    (Database.deleteDocument native cc = .ok false ↔
        (native cc).1 = false ∧ (native cc).2.code = CBLErrorConflict ∧
        (native cc).2.domain = CBLDomain) ∧
    (∀ e, Database.deleteDocument native cc = .error e ↔
        (native cc).1 = false ∧
        ¬((native cc).2.code = CBLErrorConflict ∧ (native cc).2.domain = CBLDomain) ∧
        e = (native cc).2) ∧
    (Database.purgeDocument p = .ok () ↔ p.1 = true) ∧
    (∀ e, Database.purgeDocument p = .error e ↔ p.1 = false ∧ e = p.2) := by
  obtain ⟨h1, h2, h3⟩ := checkSave_contract (native cc).1 (native cc).2
  refine ⟨rfl, h1, h2, h3, ?_, ?_⟩ <;>
    unfold Database.purgeDocument RefCounted.check <;>
    rcases p with ⟨ok, err⟩ <;>
    cases ok <;> simp <;> tauto

/-- A native save behavior that succeeds under lastWriteWins but reports the
conflict error under failOnConflict: it separates the two default policies. -/
def nativeSplitOnPolicy : CBLConcurrencyControl → Bool × CBLError
  | .lastWriteWins => (true, ⟨0, 0⟩)
  | .failOnConflict => (false, ⟨CBLDomain, CBLErrorConflict⟩)

/-- Counterexample for C7: the no-argument save overload does not resolve to
the failOnConflict policy. On `nativeSplitOnPolicy` it reports a completed
save (ok true) where a save under the declared default failOnConflict reports
not-saved (ok false), so the two policy-omitting entry points disagree. -/
theorem saveDocument_defaults_differ :
    Database.saveDocumentNoArg nativeSplitOnPolicy = .ok true ∧
    Database.saveDocumentWithCC nativeSplitOnPolicy
        Database.saveDocumentDefaultArg = .ok false ∧
    Database.saveDocumentNoArg nativeSplitOnPolicy ≠
      Database.saveDocumentWithCC nativeSplitOnPolicy
        Database.saveDocumentDefaultArg := by
  refine ⟨rfl, rfl, ?_⟩
  intro h
  rw [show Database.saveDocumentNoArg nativeSplitOnPolicy =
        (.ok true : Except CBLError Bool) from rfl,
      show Database.saveDocumentWithCC nativeSplitOnPolicy
          Database.saveDocumentDefaultArg =
        (.ok false : Except CBLError Bool) from rfl] at h
  simp at h

/-- C7 amended: the two save entry points that let the caller omit the policy
resolve to DIFFERENT policies: the default-argument overload declared in
Database.hh defaults to failOnConflict, while the no-argument overload defined
in Document.hh delegates with lastWriteWins. -/
theorem saveDocument_default_policies
    (native : CBLConcurrencyControl → Bool × CBLError) :
    Database.saveDocumentDefaultArg = .failOnConflict ∧
    Database.saveDocumentNoArg native =
      Database.saveDocumentWithCC native .lastWriteWins ∧
    CBLConcurrencyControl.lastWriteWins ≠ CBLConcurrencyControl.failOnConflict :=
  ⟨rfl, rfl, by simp⟩

/-- C8: the whole-database trampoline hands the user callback, synchronously
and together with the database, a vector holding exactly the nDocs changed
document ids in native order (the i-th entry is the i-th native id, and there
are no others); the document trampoline hands the single changed id. -/
theorem listener_dispatch_exact {γ : Type} (f : Nat → List Slice → γ)
    (g : Nat → Slice → γ) (db nDocs : Nat) (docIDs : Nat → Slice)
    (docID : Slice) :
    (∃ vec : List Slice,
        Database.callListener f db nDocs docIDs = f db vec ∧
        (∀ i : Nat, vec.get? i = if i < nDocs then some (docIDs i) else none)) ∧
    Database.callDocListener g db docID = g db docID := by
  refine ⟨⟨List.ofFn fun i : Fin nDocs => docIDs i.val, rfl, ?_⟩, rfl⟩
  intro i
  simp [List.get?_ofFn, List.ofFnNthVal]

/-- C9: mutableCopy on a Document whose native mutable-copy yields a live
(non-null) resource always succeeds: it returns the adopted MutableDocument,
never throws, and never reaches the error inspection that would dereference
the null error pointer. -/
theorem mutableCopy_live_ok (p : Nat) :
    Document.mutableCopy (some p) = .ok ⟨some p⟩ ∧
    (∀ e, Document.mutableCopy (some p) ≠ AdoptResult.thrown e) ∧
    Document.mutableCopy (some p) ≠ AdoptResult.nullErrorDeref := by
  refine ⟨rfl, ?_, ?_⟩ <;> simp [Document.mutableCopy, MutableDocument.adopt]

/-- C10: the static deleteDatabase throws exactly when the native delete fails
with a non-zero error code; a native failure carrying error code 0 (and any
native success) returns normally without raising an error. -/
theorem deleteDatabase_contract (native : Bool × CBLError) :
    (∀ e, Database.deleteDatabase native = .error e ↔
        native.1 = false ∧ native.2.code ≠ 0 ∧ e = native.2) ∧
    (native.2.code = 0 → Database.deleteDatabase native = .ok ()) ∧
    (native.1 = true → Database.deleteDatabase native = .ok ()) := by
  unfold Database.deleteDatabase RefCounted.check
  rcases native with ⟨ok, err⟩
  cases ok <;> by_cases h : err.code = 0 <;> simp [h] <;> tauto

/-- Witness for C10: a native delete failure with error code 0 (no database
with that name) returns normally. -/
theorem deleteDatabase_contract_witness :
    Database.deleteDatabase (false, ⟨1, 0⟩) = .ok () :=
  (deleteDatabase_contract (false, ⟨1, 0⟩)).2.1 rfl

end CBL
